import Mathlib

/-!
Shallow embedding of the ipmi-prometheus-exporter pipeline (src/main.go).

Strings are Lean `String`s (lists of Unicode characters), matching Go's
rune-oriented string functions on the inputs that occur in sensor reports.
Go `float64` values are modelled exactly: a parsed number is an arbitrary
precision rational (`GoFloat.finite q`), with the IEEE special values
`Inf`/`NaN` as separate constructors.  No arithmetic is ever performed on
sensor values by the program (they are parsed, compared with 0 and stored),
so exact rationals are observationally faithful except for float rounding
of the stored magnitude, which no property below depends on.
-/

namespace IpmiExporter

/-- Model of Go `unicode.IsSpace` (the whitespace set used by
`strings.TrimSpace` and `strings.Fields`): ASCII whitespace plus NEL, NBSP
and the Unicode `White_Space` code points. -/
def goIsSpace (c : Char) : Bool :=
  c == ' ' || c == '\t' || c == '\n' || c == '\x0b' || c == '\x0c' || c == '\r' ||
  c == '\x85' || c == '\xa0' || c.toNat == 0x1680 ||
  (Nat.ble 0x2000 c.toNat && Nat.ble c.toNat 0x200a) ||
  c.toNat == 0x2028 || c.toNat == 0x2029 || c.toNat == 0x202f ||
  c.toNat == 0x205f || c.toNat == 0x3000

/-- Model of Go `strings.TrimSpace` on the character list of a string. -/
def goTrimL (l : List Char) : List Char :=
  ((l.dropWhile goIsSpace).reverse.dropWhile goIsSpace).reverse

/-- `strings.TrimSpace`, producing a `String` from a character list. -/
def trimStr (l : List Char) : String := ⟨goTrimL l⟩

/-- Model of Go `strings.Contains sub`: substring occurrence, i.e. `sub`
is a prefix of some suffix of `l`. -/
def goContainsL (l sub : List Char) : Bool :=
  l.tails.any (fun t => sub.isPrefixOf t)

/-- Model of Go `strings.Fields`: split around runs of `unicode.IsSpace`
characters, dropping empty fields. -/
def goFieldsL (l : List Char) : List (List Char) :=
  (l.splitOnP goIsSpace).filter (fun f => !f.isEmpty)

/-- A Go `float64` result, modelled exactly (see file header). -/
inductive GoFloat where
  | finite (q : ℚ)
  | inf (neg : Bool)
  | nan
deriving DecidableEq, Repr

/-- Numeric value of a list of decimal digit characters. -/
def decDigitsToNat (l : List Char) : Nat :=
  l.foldl (fun a c => 10 * a + (c.toNat - 48)) 0

/-- Strip an optional leading sign: returns (hadSign, isNeg, rest). -/
def stripSign : List Char → Bool × Bool × List Char
  | '+' :: t => (true, false, t)
  | '-' :: t => (true, true, t)
  | t => (false, false, t)

/-- Model of Go `strconv.ParseFloat(s, 64)` with a `none` result standing
for `err != nil`.  Covers the forms that can occur in an ipmitool sensor
value field: optional sign, decimal digits with optional fraction and
optional decimal exponent, plus the case-insensitive special strings
`Inf`/`Infinity` (signed or not) and `NaN` (unsigned).  Go's hexadecimal
float syntax, digit-group underscores and the overflow-to-`ErrRange`
behaviour are outside this model; parsing is exact (no float rounding). -/
def goParseFloat (s : List Char) : Option GoFloat :=
  let (hadSign, isNeg, r) := stripSign s
  let low := r.map Char.toLower
  if low = "inf".data ∨ low = "infinity".data then some (GoFloat.inf isNeg)
  else if !hadSign ∧ low = "nan".data then some GoFloat.nan
  else
    let ip := r.takeWhile Char.isDigit
    let r1 := r.dropWhile Char.isDigit
    let (fp, r2) :=
      match r1 with
      | '.' :: t => (t.takeWhile Char.isDigit, t.dropWhile Char.isDigit)
      | _ => (([] : List Char), r1)
    if ip = [] ∧ fp = [] then none
    else
      let digits : Nat := decDigitsToNat (ip ++ fp)
      match r2 with
      | [] =>
        let n : Int := if isNeg then -(digits : Int) else (digits : Int)
        some (GoFloat.finite (mkRat n (10 ^ fp.length)))
      | e :: t =>
        if e = 'e' ∨ e = 'E' then
          let (_, eNeg, t1) := stripSign t
          let ed := t1.takeWhile Char.isDigit
          let t2 := t1.dropWhile Char.isDigit
          if ed = [] ∨ t2 ≠ [] then none
          else
            let ex : Nat := decDigitsToNat ed
            let numAbs : Nat := if eNeg then digits else digits * 10 ^ ex
            let den : Nat := if eNeg then 10 ^ fp.length * 10 ^ ex else 10 ^ fp.length
            let n : Int := if isNeg then -(numAbs : Int) else (numAbs : Int)
            some (GoFloat.finite (mkRat n den))
        else none

/-- One keyword test inside `parseValue`: if the (trimmed) value text
contains `kw`, split it into fields and parse the first field as a float;
`none` means this keyword clause falls through to the next one. -/
def tryUnit (v : List Char) (kw : String) : Option GoFloat :=
  if goContainsL v kw.data then
    match goFieldsL v with
    | [] => none
    | p :: _ => goParseFloat p
  else none

/-- Model of `parseValue` (src/main.go): returns (value, unit, sensorType);
`(0, "", "")` is the unclassifiable fall-through result. -/
def parseValue (valueStr : String) : GoFloat × String × String :=
  let v := goTrimL valueStr.data
  match tryUnit v "Volts" with
  | some val => (val, "volts", "voltage")
  | none =>
  match tryUnit v "degrees C" with
  | some val => (val, "celsius", "temperature")
  | none =>
  match tryUnit v "RPM" with
  | some val => (val, "rpm", "fan")
  | none =>
  match tryUnit v "Watts" with
  | some val => (val, "watts", "power")
  | none =>
  match tryUnit v "Amps" with
  | some val => (val, "amperes", "current")
  | none => (GoFloat.finite 0, "", "")

/-- A parsed sensor record (Go struct `SensorData`). -/
structure SensorData where
  Name : String
  ID : String
  Status : String
  Entity : String
  Value : GoFloat
  Unit : String
  Type' : String
deriving DecidableEq, Repr

/-- The whitespace class `\s` of Go's regexp engine (RE2): `[\t\n\f\r ]`. -/
def regexSpace (c : Char) : Bool :=
  c == ' ' || c == '\t' || c == '\n' || c == '\x0c' || c == '\r'

/-- The word-character class `\w` of Go's regexp engine: `[0-9A-Za-z_]`. -/
def isWordChar (c : Char) : Bool :=
  c.isAlpha || c.isDigit || c == '_'

/-- Capture of `\s*([^|]+)` inside one delimiter-bounded segment, under
leftmost-first (backtracking) semantics: the leading `\s*` first takes the
whole leading run of `\s` characters, backing off just enough to leave at
least one character for the group.  The group then extends to the end of
the segment (the trailing `\s*` matches empty). -/
def csGroup (seg : List Char) : List Char :=
  seg.drop (min (seg.takeWhile regexSpace).length (seg.length - 1))

/-- Model of `sensorRegex.FindStringSubmatch` for the anchored pattern
`^([^|]+)\s*\|\s*([^|]+)\s*\|\s*(\w+)\s*\|\s*([^|]+)\s*\|\s*(.+)$`
(src/main.go).  Since `[^|]`, `\s` and `\w` all exclude `|`, the four
literal `\|` of the pattern are forced onto the first four `|` characters
of the line; the fifth capture, via `.`, spans the rest (which may itself
contain `|`).  Returns the five captures, or `none` when the line does not
match. -/
def matchSensorLine (line : List Char) : Option (List Char × List Char × List Char × List Char × List Char) :=
  match line.splitOn '|' with
  | s1 :: s2 :: s3 :: s4 :: rest =>
    if rest.isEmpty then none
    else
      let s5 := List.intercalate ['|'] rest
      let a := s3.dropWhile regexSpace
      let w := a.takeWhile isWordChar
      let r3 := a.drop w.length
      if s1 ≠ [] ∧ s2 ≠ [] ∧ w ≠ [] ∧ r3.all regexSpace ∧ s4 ≠ [] ∧
          s5 ≠ [] ∧ ¬ s5.contains '\n' then
        some (s1, csGroup s2, w, csGroup s4, csGroup s5)
      else none
  | _ => none

/-- The body of the per-line loop in `parseSensorData` (src/main.go):
trim the line, skip if empty, match it against the sensor pattern, apply
the status filter, the absent-reading filter and the classification
filter, and append the resulting record to the accumulator. -/
def parseLine (acc : List SensorData) (rawLine : List Char) : List SensorData :=
  let line := goTrimL rawLine
  if line.isEmpty then acc
  else
    match matchSensorLine line with
    | none => acc
    | some (m1, m2, m3, m4, m5) =>
      let name := trimStr m1
      let id := trimStr m2
      let status := trimStr m3
      let entity := trimStr m4
      let valueStr := trimStr m5
      if status ≠ "ok" then acc
      else if goContainsL valueStr.data "No Reading".data then acc
      else
        let vut := parseValue valueStr
        if vut.1 = GoFloat.finite 0 ∧ vut.2.1 = "" then acc
        else acc ++ [⟨name, id, status, entity, vut.1, vut.2.1, vut.2.2⟩]

/-- Model of `parseSensorData` (src/main.go): split the report on newline
characters and run the per-line loop over the lines. -/
def parseSensorData (sdrData : String) : List SensorData :=
  (sdrData.data.splitOn '\n').foldl parseLine []

/-- One Prometheus `GaugeVec` with label set (sensor_name, sensor_id, host):
a partial map from a label combination to the stored value. -/
def GaugeMap : Type := String × String × String → Option GoFloat

/-- The five registered gauge vectors (voltageGauge, temperatureGauge,
fanGauge, powerGauge, currentGauge in src/main.go). -/
@[ext]
structure Registry where
  voltage : GaugeMap
  temperature : GaugeMap
  fan : GaugeMap
  power : GaugeMap
  current : GaugeMap

/-- `gauge.WithLabelValues(name, id, host).Set(v)`: unconditional overwrite
of the value stored under one label combination. -/
def setGauge (g : GaugeMap) (name id host : String) (v : GoFloat) : GaugeMap :=
  fun k => if k = (name, id, host) then some v else g k

/-- The `switch sensor.Type` body of `updateMetrics` (src/main.go) for one
sensor: route the value to the gauge of its quantity; an unknown quantity
tag (impossible for parser output) updates nothing. -/
def updateMetric (r : Registry) (host : String) (s : SensorData) : Registry :=
  if s.Type' = "voltage" then
    { r with voltage := setGauge r.voltage s.Name s.ID host s.Value }
  else if s.Type' = "temperature" then
    { r with temperature := setGauge r.temperature s.Name s.ID host s.Value }
  else if s.Type' = "fan" then
    { r with fan := setGauge r.fan s.Name s.ID host s.Value }
  else if s.Type' = "power" then
    { r with power := setGauge r.power s.Name s.ID host s.Value }
  else if s.Type' = "current" then
    { r with current := setGauge r.current s.Name s.ID host s.Value }
  else r

/-- Model of `updateMetrics` (src/main.go): the global registry becomes an
explicit state argument threaded through the loop over the sensors. -/
def updateMetrics (sensors : List SensorData) (host : String) (r : Registry) : Registry :=
  sensors.foldl (fun acc s => updateMetric acc host s) r

/-- One successful collection pass over report text: parse, then update
the registry (the body of `collectMetrics` after the fetch succeeded). -/
def runPipeline (sdrData host : String) (r : Registry) : Registry :=
  updateMetrics (parseSensorData sdrData) host r

/-- Observable scheduler events of `startMetricsCollection`:
a `collectMetrics` invocation, or a tick of the 30-second ticker. -/
inductive Event where
  | collect
  | tick
deriving DecidableEq, Repr

/-- Event sequence of the spawned `for { collectMetrics(config); <-ticker.C }`
loop, unrolled up to and including its n-th wait on the ticker channel:
an unconditional collect, then tick/collect pairs. -/
def collectorLoop : Nat → List Event
  | 0 => [Event.collect]
  | n + 1 => Event.collect :: Event.tick :: collectorLoop n

/-- Model of the startup sequence of `startMetricsCollection` (src/main.go),
observed through the n-th tick: the function spawns the collector loop and
then immediately calls `collectMetrics` once more in the calling flow.
Both that call and the loop's first iteration are issued at startup,
before the first 30-second tick can fire, so the main-flow collect is
placed ahead of the loop events. -/
def startTrace (n : Nat) : List Event :=
  Event.collect :: collectorLoop n

/-- Number of collect events strictly before the first tick of a trace. -/
def collectsBeforeFirstTick (tr : List Event) : Nat :=
  ((tr.takeWhile (fun e => e ≠ Event.tick)).filter (fun e => e = Event.collect)).length

/-- Total number of collect events in a trace. -/
def totalCollects (tr : List Event) : Nat :=
  (tr.filter (fun e => e = Event.collect)).length

/-- The empty state of all five gauge maps (used to instantiate
universally quantified registry arguments at a concrete input). -/
def emptyRegistry : Registry :=
  ⟨fun _ => none, fun _ => none, fun _ => none, fun _ => none, fun _ => none⟩

/-- First-write-from-the-right override: `overr o a` is `o` when `o` holds
a value, else the fallback `a`. -/
def overr (o a : Option GoFloat) : Option GoFloat :=
  match o with
  | some v => some v
  | none => a

/-- Whether sensor `s`, routed under family tag `fname` for host `host`,
writes the label combination `k`. -/
def writesAt (fname host : String) (s : SensorData) (k : String × String × String) : Prop :=
  s.Type' = fname ∧ k = (s.Name, s.ID, host)

instance (fname host : String) (s : SensorData) (k : String × String × String) :
    Decidable (writesAt fname host s k) := by
  unfold writesAt; infer_instance

/-- The value left at label combination `k` of the `fname` gauge family by
the sensors of `l` (later writes override earlier ones), `none` when no
sensor of `l` writes `k`. -/
def lastVal (fname host : String) (l : List SensorData) (k : String × String × String) :
    Option GoFloat :=
  l.foldl (fun a s => if writesAt fname host s k then some s.Value else a) none

/-- Report for the frame-effect scenario: one valid voltage line, one
malformed line, one valid temperature line. -/
def c7Report : String :=
  "CPU1 VCore     | 02h | ok  |  3.1 | 1.02 Volts\nThis line is garbage noise\nCPU1 Temp      | 01h | ok  |  3.1 | 45 degrees C"

/-- The voltage reading parsed from `c7Report`. -/
def c7V : SensorData :=
  ⟨"CPU1 VCore", "02h", "ok", "3.1", GoFloat.finite (mkRat 102 100), "volts", "voltage"⟩

/-- The temperature reading parsed from `c7Report`. -/
def c7T : SensorData :=
  ⟨"CPU1 Temp", "01h", "ok", "3.1", GoFloat.finite 45, "celsius", "temperature"⟩

/-- The unit/quantity pairs that classification can emit. -/
def knownUnitType (u t : String) : Prop :=
  (u = "volts" ∧ t = "voltage") ∨ (u = "celsius" ∧ t = "temperature") ∨
  (u = "rpm" ∧ t = "fan") ∨ (u = "watts" ∧ t = "power") ∨
  (u = "amperes" ∧ t = "current")

lemma matchSensorLine_nil : matchSensorLine [] = none := rfl

lemma goTrimL_isEmpty_eq_nil {l : List Char} (h : (goTrimL l).isEmpty = true) :
    goTrimL l = [] := List.isEmpty_iff.mp h

/-- C1: the report line "CPU1 Temp      | 01h | ok  |  3.1 | 45 degrees C"
parses to exactly one SensorReading with name "CPU1 Temp", id "01h",
status "ok", value 45, unit "celsius" and quantity "temperature". -/
theorem c1_single_temperature_line :
    parseSensorData "CPU1 Temp      | 01h | ok  |  3.1 | 45 degrees C" =
      [{ Name := "CPU1 Temp", ID := "01h", Status := "ok", Entity := "3.1",
         Value := GoFloat.finite 45, Unit := "celsius", Type' := "temperature" }] := by
  decide

/-- C8: the Value Classifier maps "12.240 Volts" to (12.24, volts, voltage),
"850 RPM" to (850, rpm, fan), and "N/A" to the unclassifiable signal
(zero value with empty unit). -/
theorem c8_classifier_examples :
    parseValue "12.240 Volts" = (GoFloat.finite (mkRat 1224 100), "volts", "voltage") ∧
    parseValue "850 RPM" = (GoFloat.finite 850, "rpm", "fan") ∧
    parseValue "N/A" = (GoFloat.finite 0, "", "") := by
  decide

/-- C2 counterexample: in the startup sequence of `startMetricsCollection`,
the number of `collectMetrics` invocations before the first ticker tick is
2 (one from the spawned loop, one from the calling flow), not 1. -/
theorem c2_counterexample :
    collectsBeforeFirstTick (startTrace 1) = 2 ∧
    ¬ collectsBeforeFirstTick (startTrace 1) = 1 := by
  decide

lemma totalCollects_cons_collect (tr : List Event) :
    totalCollects (Event.collect :: tr) = totalCollects tr + 1 := by
  simp [totalCollects]

lemma totalCollects_cons_tick (tr : List Event) :
    totalCollects (Event.tick :: tr) = totalCollects tr := by
  simp [totalCollects]

lemma totalCollects_collectorLoop (n : Nat) : totalCollects (collectorLoop n) = n + 1 := by
  induction n with
  | zero => rfl
  | succ n ih =>
    show totalCollects (Event.collect :: Event.tick :: collectorLoop n) = n + 2
    rw [totalCollects_cons_collect, totalCollects_cons_tick, ih]

/-- C2 amended: the startup sequence of `startMetricsCollection` performs
exactly two `collectMetrics` invocations before the first timer tick (the
unconditional first run of the spawned loop plus the extra call in the
main flow), and thereafter exactly one per tick: through the n-th tick,
n + 2 invocations in total. -/
theorem c2_two_initial_collects (n : Nat) :
    collectsBeforeFirstTick (startTrace n) = 2 ∧
    totalCollects (startTrace n) = n + 2 := by
  constructor
  · cases n <;> rfl
  · show totalCollects (Event.collect :: collectorLoop n) = n + 2
    rw [totalCollects_cons_collect, totalCollects_collectorLoop]

/-- C4: a line that does not match the five-field pipe-delimited shape
(after trimming) is rejected by the per-line loop and contributes no
SensorReading to the output. -/
theorem c4_malformed_line_rejected (rawLine : List Char) (acc : List SensorData)
    (h : matchSensorLine (goTrimL rawLine) = none) :
    parseLine acc rawLine = acc := by
  unfold parseLine
  by_cases he : (goTrimL rawLine).isEmpty
  · simp [he]
  · simp only [he, if_false, Bool.false_eq_true, if_neg, h]

theorem c4_malformed_line_rejected_witness :
    matchSensorLine (goTrimL "some header junk".data) = none ∧
    parseLine [] "some header junk".data = [] :=
  ⟨by decide, c4_malformed_line_rejected "some header junk".data [] (by decide)⟩

/-- C5: a line that matches the five-field shape but whose trimmed status
field is not exactly "ok" produces no SensorReading, regardless of the
value field. -/
theorem c5_non_ok_status_skipped (rawLine : List Char) (acc : List SensorData)
    (m : List Char × List Char × List Char × List Char × List Char)
    (hm : matchSensorLine (goTrimL rawLine) = some m)
    (hs : trimStr m.2.2.1 ≠ "ok") :
    parseLine acc rawLine = acc := by
  unfold parseLine
  by_cases he : (goTrimL rawLine).isEmpty
  · simp [he]
  · obtain ⟨m1, m2, m3, m4, m5⟩ := m
    simp only [he, Bool.false_eq_true, if_false, hm]
    simp only [hs, if_true, ite_not]
    simp [hs]

theorem c5_non_ok_status_skipped_witness :
    matchSensorLine (goTrimL "Fan2 | 05h | ns | 7.1 | 850 RPM".data) =
      some ("Fan2 ".data, "05h ".data, "ns".data, "7.1 ".data, "850 RPM".data) ∧
    parseLine [] "Fan2 | 05h | ns | 7.1 | 850 RPM".data = [] :=
  ⟨by decide, c5_non_ok_status_skipped "Fan2 | 05h | ns | 7.1 | 850 RPM".data []
    ("Fan2 ".data, "05h ".data, "ns".data, "7.1 ".data, "850 RPM".data)
    (by decide) (by decide)⟩

/-- C6: a matched line whose trimmed value-field text contains the marker
"No Reading" produces no SensorReading (whatever the status field is), and
in particular the report line "Fan1           | 04h | ok  |  7.1 | No Reading"
yields zero readings. -/
theorem c6_no_reading_skipped :
    parseSensorData "Fan1           | 04h | ok  |  7.1 | No Reading" = [] ∧
    ∀ (rawLine : List Char) (acc : List SensorData)
      (m : List Char × List Char × List Char × List Char × List Char),
      matchSensorLine (goTrimL rawLine) = some m →
      goContainsL (trimStr m.2.2.2.2).data "No Reading".data = true →
      parseLine acc rawLine = acc := by
  refine ⟨by decide, ?_⟩
  intro rawLine acc m hm hnr
  unfold parseLine
  by_cases he : (goTrimL rawLine).isEmpty
  · simp [he]
  · obtain ⟨m1, m2, m3, m4, m5⟩ := m
    simp only [he, Bool.false_eq_true, if_false, hm]
    by_cases hs : trimStr m3 = "ok"
    · simp only [hs, ite_not, if_true]
      simp only at hnr
      simp [hnr]
    · simp [hs]

theorem c6_no_reading_skipped_witness :
    parseSensorData "Fan1           | 04h | ok  |  7.1 | No Reading" = [] ∧
    parseLine [] "Fan1           | 04h | ok  |  7.1 | No Reading".data = [] :=
  ⟨c6_no_reading_skipped.1,
    c6_no_reading_skipped.2 "Fan1           | 04h | ok  |  7.1 | No Reading".data []
      ("Fan1           ".data, "04h ".data, "ok".data, "7.1 ".data, "No Reading".data)
      (by decide) (by decide)⟩

lemma overr_assoc (o b a : Option GoFloat) :
    overr (overr o b) a = overr o (overr b a) := by
  cases o <;> rfl

lemma overr_none (a : Option GoFloat) : overr none a = a := rfl

lemma overr_self (o a : Option GoFloat) : overr o (overr o a) = overr o a := by
  cases o <;> rfl

lemma lastVal_nil (fname host : String) (k : String × String × String) :
    lastVal fname host [] k = none := rfl

lemma lastVal_from (fname host : String) (l : List SensorData) (a : Option GoFloat)
    (k : String × String × String) :
    l.foldl (fun a s => if writesAt fname host s k then some s.Value else a) a
      = overr (lastVal fname host l k) a := by
  induction l generalizing a with
  | nil => rfl
  | cons s t ih =>
    show t.foldl _ (if writesAt fname host s k then some s.Value else a)
      = overr (lastVal fname host (s :: t) k) a
    have hcons : lastVal fname host (s :: t) k
        = overr (lastVal fname host t k) (if writesAt fname host s k then some s.Value else none) := by
      show t.foldl _ (if writesAt fname host s k then some s.Value else none) = _
      exact ih _
    rw [hcons, overr_assoc, ih]
    by_cases h : writesAt fname host s k
    · simp [h, overr]
    · simp [h, overr]

lemma lastVal_cons (fname host : String) (s : SensorData) (t : List SensorData)
    (k : String × String × String) :
    lastVal fname host (s :: t) k
      = overr (lastVal fname host t k) (if writesAt fname host s k then some s.Value else none) := by
  show List.foldl _ (if writesAt fname host s k then some s.Value else none) t = _
  exact lastVal_from fname host t _ k

lemma updateMetric_voltage_apply (r : Registry) (host : String) (s : SensorData)
    (k : String × String × String) :
    (updateMetric r host s).voltage k
      = overr (if writesAt "voltage" host s k then some s.Value else none) (r.voltage k) := by
  by_cases h1 : s.Type' = "voltage"
  · unfold updateMetric
    rw [if_pos h1]
    show setGauge r.voltage s.Name s.ID host s.Value k = _
    unfold setGauge
    by_cases hk : k = (s.Name, s.ID, host)
    · rw [if_pos hk, if_pos (show writesAt "voltage" host s k from ⟨h1, hk⟩)]
      rfl
    · rw [if_neg hk, if_neg (show ¬ writesAt "voltage" host s k from fun hc => hk hc.2)]
      rfl
  · have hv : (updateMetric r host s).voltage = r.voltage := by
      unfold updateMetric
      rw [if_neg h1]
      split_ifs <;> rfl
    rw [hv, if_neg (show ¬ writesAt "voltage" host s k from fun hc => h1 hc.1), overr_none]

lemma updateMetric_temperature_apply (r : Registry) (host : String) (s : SensorData)
    (k : String × String × String) :
    (updateMetric r host s).temperature k
      = overr (if writesAt "temperature" host s k then some s.Value else none) (r.temperature k) := by
  by_cases h1 : s.Type' = "temperature"
  · unfold updateMetric
    rw [if_neg (show ¬ s.Type' = "voltage" by simp [h1])]
    rw [if_pos h1]
    show setGauge r.temperature s.Name s.ID host s.Value k = _
    unfold setGauge
    by_cases hk : k = (s.Name, s.ID, host)
    · rw [if_pos hk, if_pos (show writesAt "temperature" host s k from ⟨h1, hk⟩)]
      rfl
    · rw [if_neg hk, if_neg (show ¬ writesAt "temperature" host s k from fun hc => hk hc.2)]
      rfl
  · have hv : (updateMetric r host s).temperature = r.temperature := by
      unfold updateMetric
      split_ifs <;> rfl
    rw [hv, if_neg (show ¬ writesAt "temperature" host s k from fun hc => h1 hc.1), overr_none]

lemma updateMetric_fan_apply (r : Registry) (host : String) (s : SensorData)
    (k : String × String × String) :
    (updateMetric r host s).fan k
      = overr (if writesAt "fan" host s k then some s.Value else none) (r.fan k) := by
  by_cases h1 : s.Type' = "fan"
  · unfold updateMetric
    rw [if_neg (show ¬ s.Type' = "voltage" by simp [h1])]
    rw [if_neg (show ¬ s.Type' = "temperature" by simp [h1])]
    rw [if_pos h1]
    show setGauge r.fan s.Name s.ID host s.Value k = _
    unfold setGauge
    by_cases hk : k = (s.Name, s.ID, host)
    · rw [if_pos hk, if_pos (show writesAt "fan" host s k from ⟨h1, hk⟩)]
      rfl
    · rw [if_neg hk, if_neg (show ¬ writesAt "fan" host s k from fun hc => hk hc.2)]
      rfl
  · have hv : (updateMetric r host s).fan = r.fan := by
      unfold updateMetric
      split_ifs <;> rfl
    rw [hv, if_neg (show ¬ writesAt "fan" host s k from fun hc => h1 hc.1), overr_none]

lemma updateMetric_power_apply (r : Registry) (host : String) (s : SensorData)
    (k : String × String × String) :
    (updateMetric r host s).power k
      = overr (if writesAt "power" host s k then some s.Value else none) (r.power k) := by
  by_cases h1 : s.Type' = "power"
  · unfold updateMetric
    rw [if_neg (show ¬ s.Type' = "voltage" by simp [h1])]
    rw [if_neg (show ¬ s.Type' = "temperature" by simp [h1])]
    rw [if_neg (show ¬ s.Type' = "fan" by simp [h1])]
    rw [if_pos h1]
    show setGauge r.power s.Name s.ID host s.Value k = _
    unfold setGauge
    by_cases hk : k = (s.Name, s.ID, host)
    · rw [if_pos hk, if_pos (show writesAt "power" host s k from ⟨h1, hk⟩)]
      rfl
    · rw [if_neg hk, if_neg (show ¬ writesAt "power" host s k from fun hc => hk hc.2)]
      rfl
  · have hv : (updateMetric r host s).power = r.power := by
      unfold updateMetric
      split_ifs <;> rfl
    rw [hv, if_neg (show ¬ writesAt "power" host s k from fun hc => h1 hc.1), overr_none]

lemma updateMetric_current_apply (r : Registry) (host : String) (s : SensorData)
    (k : String × String × String) :
    (updateMetric r host s).current k
      = overr (if writesAt "current" host s k then some s.Value else none) (r.current k) := by
  by_cases h1 : s.Type' = "current"
  · unfold updateMetric
    rw [if_neg (show ¬ s.Type' = "voltage" by simp [h1])]
    rw [if_neg (show ¬ s.Type' = "temperature" by simp [h1])]
    rw [if_neg (show ¬ s.Type' = "fan" by simp [h1])]
    rw [if_neg (show ¬ s.Type' = "power" by simp [h1])]
    rw [if_pos h1]
    show setGauge r.current s.Name s.ID host s.Value k = _
    unfold setGauge
    by_cases hk : k = (s.Name, s.ID, host)
    · rw [if_pos hk, if_pos (show writesAt "current" host s k from ⟨h1, hk⟩)]
      rfl
    · rw [if_neg hk, if_neg (show ¬ writesAt "current" host s k from fun hc => hk hc.2)]
      rfl
  · have hv : (updateMetric r host s).current = r.current := by
      unfold updateMetric
      split_ifs <;> rfl
    rw [hv, if_neg (show ¬ writesAt "current" host s k from fun hc => h1 hc.1), overr_none]

lemma updateMetrics_voltage_apply (l : List SensorData) (host : String) (r : Registry)
    (k : String × String × String) :
    (updateMetrics l host r).voltage k = overr (lastVal "voltage" host l k) (r.voltage k) := by
  induction l generalizing r with
  | nil => rfl
  | cons s t ih =>
    show (updateMetrics t host (updateMetric r host s)).voltage k = _
    rw [ih, updateMetric_voltage_apply, lastVal_cons, overr_assoc]

lemma updateMetrics_temperature_apply (l : List SensorData) (host : String) (r : Registry)
    (k : String × String × String) :
    (updateMetrics l host r).temperature k
      = overr (lastVal "temperature" host l k) (r.temperature k) := by
  induction l generalizing r with
  | nil => rfl
  | cons s t ih =>
    show (updateMetrics t host (updateMetric r host s)).temperature k = _
    rw [ih, updateMetric_temperature_apply, lastVal_cons, overr_assoc]

lemma updateMetrics_fan_apply (l : List SensorData) (host : String) (r : Registry)
    (k : String × String × String) :
    (updateMetrics l host r).fan k = overr (lastVal "fan" host l k) (r.fan k) := by
  induction l generalizing r with
  | nil => rfl
  | cons s t ih =>
    show (updateMetrics t host (updateMetric r host s)).fan k = _
    rw [ih, updateMetric_fan_apply, lastVal_cons, overr_assoc]

lemma updateMetrics_power_apply (l : List SensorData) (host : String) (r : Registry)
    (k : String × String × String) :
    (updateMetrics l host r).power k = overr (lastVal "power" host l k) (r.power k) := by
  induction l generalizing r with
  | nil => rfl
  | cons s t ih =>
    show (updateMetrics t host (updateMetric r host s)).power k = _
    rw [ih, updateMetric_power_apply, lastVal_cons, overr_assoc]

lemma updateMetrics_current_apply (l : List SensorData) (host : String) (r : Registry)
    (k : String × String × String) :
    (updateMetrics l host r).current k = overr (lastVal "current" host l k) (r.current k) := by
  induction l generalizing r with
  | nil => rfl
  | cons s t ih =>
    show (updateMetrics t host (updateMetric r host s)).current k = _
    rw [ih, updateMetric_current_apply, lastVal_cons, overr_assoc]

/-- C3: the parse-then-update pipeline is idempotent on the registry: for
every report text, host and starting registry state, running it twice in
succession equals running it once (each update is a pure overwrite keyed
by quantity, sensor name, sensor id and host; nothing accumulates). -/
theorem c3_pipeline_idempotent (sdrData host : String) (r : Registry) :
    runPipeline sdrData host (runPipeline sdrData host r) = runPipeline sdrData host r := by
  unfold runPipeline
  apply Registry.ext
  · funext k
    rw [updateMetrics_voltage_apply, updateMetrics_voltage_apply, overr_self]
  · funext k
    rw [updateMetrics_temperature_apply, updateMetrics_temperature_apply, overr_self]
  · funext k
    rw [updateMetrics_fan_apply, updateMetrics_fan_apply, overr_self]
  · funext k
    rw [updateMetrics_power_apply, updateMetrics_power_apply, overr_self]
  · funext k
    rw [updateMetrics_current_apply, updateMetrics_current_apply, overr_self]

lemma c7Report_parses : parseSensorData c7Report = [c7V, c7T] := by decide

/-- C7: one collection pass over a report with one valid voltage line, one
malformed line and one valid temperature line updates exactly two metric
points — the voltage point and the temperature point labeled by that
line's sensor name, sensor id and the host — and every other point of
every family keeps its prior value. -/
theorem c7_exactly_two_points_updated (host : String) (r : Registry) :
    (runPipeline c7Report host r).voltage ("CPU1 VCore", "02h", host)
        = some (GoFloat.finite (mkRat 102 100)) ∧
    (runPipeline c7Report host r).temperature ("CPU1 Temp", "01h", host)
        = some (GoFloat.finite 45) ∧
    (∀ k, k ≠ ("CPU1 VCore", "02h", host) →
      (runPipeline c7Report host r).voltage k = r.voltage k) ∧
    (∀ k, k ≠ ("CPU1 Temp", "01h", host) →
      (runPipeline c7Report host r).temperature k = r.temperature k) ∧
    (runPipeline c7Report host r).fan = r.fan ∧
    (runPipeline c7Report host r).power = r.power ∧
    (runPipeline c7Report host r).current = r.current := by
  unfold runPipeline
  rw [c7Report_parses]
  refine ⟨?_, ?_, ?_, ?_, ?_, ?_, ?_⟩
  · rw [updateMetrics_voltage_apply, lastVal_cons, lastVal_cons, lastVal_nil]
    rw [if_neg (show ¬ writesAt "voltage" host c7T ("CPU1 VCore", "02h", host) from
      fun hc => absurd hc.1 (by decide))]
    rw [if_pos (show writesAt "voltage" host c7V ("CPU1 VCore", "02h", host) from
      ⟨rfl, rfl⟩)]
    rfl
  · rw [updateMetrics_temperature_apply, lastVal_cons, lastVal_cons, lastVal_nil]
    rw [if_pos (show writesAt "temperature" host c7T ("CPU1 Temp", "01h", host) from
      ⟨rfl, rfl⟩)]
    rfl
  · intro k hk
    rw [updateMetrics_voltage_apply, lastVal_cons, lastVal_cons, lastVal_nil]
    rw [if_neg (show ¬ writesAt "voltage" host c7T k from fun hc => absurd hc.1 (by decide))]
    rw [if_neg (show ¬ writesAt "voltage" host c7V k from fun hc => hk hc.2)]
    rfl
  · intro k hk
    rw [updateMetrics_temperature_apply, lastVal_cons, lastVal_cons, lastVal_nil]
    rw [if_neg (show ¬ writesAt "temperature" host c7T k from fun hc => hk hc.2)]
    rw [if_neg (show ¬ writesAt "temperature" host c7V k from fun hc => absurd hc.1 (by decide))]
    rfl
  · funext k
    rw [updateMetrics_fan_apply, lastVal_cons, lastVal_cons, lastVal_nil]
    rw [if_neg (show ¬ writesAt "fan" host c7T k from fun hc => absurd hc.1 (by decide))]
    rw [if_neg (show ¬ writesAt "fan" host c7V k from fun hc => absurd hc.1 (by decide))]
    rfl
  · funext k
    rw [updateMetrics_power_apply, lastVal_cons, lastVal_cons, lastVal_nil]
    rw [if_neg (show ¬ writesAt "power" host c7T k from fun hc => absurd hc.1 (by decide))]
    rw [if_neg (show ¬ writesAt "power" host c7V k from fun hc => absurd hc.1 (by decide))]
    rfl
  · funext k
    rw [updateMetrics_current_apply, lastVal_cons, lastVal_cons, lastVal_nil]
    rw [if_neg (show ¬ writesAt "current" host c7T k from fun hc => absurd hc.1 (by decide))]
    rw [if_neg (show ¬ writesAt "current" host c7V k from fun hc => absurd hc.1 (by decide))]
    rfl

theorem c7_exactly_two_points_updated_witness :
    (runPipeline c7Report "h1" emptyRegistry).voltage ("CPU1 VCore", "02h", "h1")
        = some (GoFloat.finite (mkRat 102 100)) ∧
    (runPipeline c7Report "h1" emptyRegistry).voltage ("Other", "09h", "h1") = none ∧
    (runPipeline c7Report "h1" emptyRegistry).fan ("Fan1", "04h", "h1") = none :=
  ⟨(c7_exactly_two_points_updated "h1" emptyRegistry).1,
   (c7_exactly_two_points_updated "h1" emptyRegistry).2.2.1 ("Other", "09h", "h1") (by decide),
   congrFun (c7_exactly_two_points_updated "h1" emptyRegistry).2.2.2.2.1 ("Fan1", "04h", "h1")⟩

lemma knownUnitType_ne_empty {u t : String} (h : knownUnitType u t) : u ≠ "" := by
  rcases h with ⟨h, _⟩ | ⟨h, _⟩ | ⟨h, _⟩ | ⟨h, _⟩ | ⟨h, _⟩ <;> rw [h] <;> decide

lemma parseValue_knownUnitType (v : String) :
    knownUnitType (parseValue v).2.1 (parseValue v).2.2 ∨
    parseValue v = (GoFloat.finite 0, "", "") := by
  simp only [parseValue]
  split
  · exact Or.inl (Or.inl ⟨rfl, rfl⟩)
  · split
    · exact Or.inl (Or.inr (Or.inl ⟨rfl, rfl⟩))
    · split
      · exact Or.inl (Or.inr (Or.inr (Or.inl ⟨rfl, rfl⟩)))
      · split
        · exact Or.inl (Or.inr (Or.inr (Or.inr (Or.inl ⟨rfl, rfl⟩))))
        · split
          · exact Or.inl (Or.inr (Or.inr (Or.inr (Or.inr ⟨rfl, rfl⟩))))
          · exact Or.inr rfl

lemma parseLine_eq_of_match (acc : List SensorData) (rawLine : List Char)
    (m1 m2 m3 m4 m5 : List Char)
    (hne : ¬ (goTrimL rawLine).isEmpty = true)
    (hm : matchSensorLine (goTrimL rawLine) = some (m1, m2, m3, m4, m5)) :
    parseLine acc rawLine =
      if trimStr m3 ≠ "ok" then acc
      else if goContainsL (trimStr m5).data "No Reading".data = true then acc
      else if (parseValue (trimStr m5)).1 = GoFloat.finite 0 ∧
          (parseValue (trimStr m5)).2.1 = "" then acc
      else acc ++ [⟨trimStr m1, trimStr m2, trimStr m3, trimStr m4,
        (parseValue (trimStr m5)).1, (parseValue (trimStr m5)).2.1,
        (parseValue (trimStr m5)).2.2⟩] := by
  unfold parseLine
  rw [if_neg hne, hm]

lemma mem_parseLine (acc : List SensorData) (rawLine : List Char) (s : SensorData)
    (h : s ∈ parseLine acc rawLine) :
    s ∈ acc ∨ knownUnitType s.Unit s.Type' := by
  by_cases he : (goTrimL rawLine).isEmpty = true
  · unfold parseLine at h
    rw [if_pos he] at h; exact Or.inl h
  · cases hm : matchSensorLine (goTrimL rawLine) with
    | none =>
      unfold parseLine at h
      rw [if_neg he, hm] at h; exact Or.inl h
    | some m =>
      obtain ⟨m1, m2, m3, m4, m5⟩ := m
      rw [parseLine_eq_of_match acc rawLine m1 m2 m3 m4 m5 he hm] at h
      by_cases hs : trimStr m3 ≠ "ok"
      · rw [if_pos hs] at h; exact Or.inl h
      · rw [if_neg hs] at h
        by_cases hnr : goContainsL (trimStr m5).data "No Reading".data = true
        · rw [if_pos hnr] at h; exact Or.inl h
        · rw [if_neg hnr] at h
          by_cases hz : (parseValue (trimStr m5)).1 = GoFloat.finite 0 ∧
              (parseValue (trimStr m5)).2.1 = ""
          · rw [if_pos hz] at h; exact Or.inl h
          · rw [if_neg hz] at h
            rcases List.mem_append.mp h with h' | h'
            · exact Or.inl h'
            · right
              have hsx := List.mem_singleton.mp h'
              subst hsx
              rcases parseValue_knownUnitType (trimStr m5) with hk | hk
              · exact hk
              · exact absurd ⟨by rw [hk], by rw [hk]⟩ hz

lemma mem_parseSensorData (sdrData : String) (s : SensorData)
    (h : s ∈ parseSensorData sdrData) : knownUnitType s.Unit s.Type' := by
  unfold parseSensorData at h
  have H : ∀ (lines : List (List Char)) (acc : List SensorData),
      s ∈ lines.foldl parseLine acc → s ∈ acc ∨ knownUnitType s.Unit s.Type' := by
    intro lines
    induction lines with
    | nil => intro acc h'; exact Or.inl h'
    | cons l t ih =>
      intro acc h'
      rcases ih (parseLine acc l) h' with h'' | h''
      · exact mem_parseLine acc l s h''
      · exact Or.inr h''
  rcases H _ [] h with h' | h'
  · cases h'
  · exact h'

/-- C9: every SensorReading produced by the Report Parser carries one of
the five canonical unit strings with its matching quantity tag; in
particular no output reading has an empty unit together with value zero
(the unclassifiable result is filtered, never emitted). -/
theorem c9_output_unit_invariant (sdrData : String) (s : SensorData)
    (h : s ∈ parseSensorData sdrData) :
    knownUnitType s.Unit s.Type' ∧
    ¬ (s.Value = GoFloat.finite 0 ∧ s.Unit = "") := by
  have hk := mem_parseSensorData sdrData s h
  exact ⟨hk, fun hc => knownUnitType_ne_empty hk hc.2⟩

theorem c9_output_unit_invariant_witness :
    knownUnitType "celsius" "temperature" ∧
    ¬ (GoFloat.finite 45 = GoFloat.finite 0 ∧ "celsius" = "") := by
  have h : (⟨"CPU1 Temp", "01h", "ok", "3.1", GoFloat.finite 45, "celsius",
      "temperature"⟩ : SensorData) ∈
        parseSensorData "CPU1 Temp      | 01h | ok  |  3.1 | 45 degrees C" := by decide
  exact c9_output_unit_invariant _ _ h

/-- C10: a legitimate zero-magnitude reading is kept: a matched line with
trimmed status "ok", no "No Reading" marker, whose value field classifies
to value 0 with a nonempty (recognized) unit is emitted as a SensorReading
with value 0 and that unit — the drop fires only when the parsed value is
0 and the unit is empty. -/
theorem c10_zero_value_reading_kept (rawLine : List Char) (acc : List SensorData)
    (m : List Char × List Char × List Char × List Char × List Char) (u t : String)
    (hm : matchSensorLine (goTrimL rawLine) = some m)
    (hok : trimStr m.2.2.1 = "ok")
    (hnr : goContainsL (trimStr m.2.2.2.2).data "No Reading".data = false)
    (hpv : parseValue (trimStr m.2.2.2.2) = (GoFloat.finite 0, u, t))
    (hu : u ≠ "") :
    parseLine acc rawLine =
      acc ++ [⟨trimStr m.1, trimStr m.2.1, trimStr m.2.2.1, trimStr m.2.2.2.1,
        GoFloat.finite 0, u, t⟩] := by
  obtain ⟨m1, m2, m3, m4, m5⟩ := m
  simp only at hok hnr hpv ⊢
  have hne : ¬ (goTrimL rawLine).isEmpty = true := by
    intro he
    rw [goTrimL_isEmpty_eq_nil he, matchSensorLine_nil] at hm
    cases hm
  rw [parseLine_eq_of_match acc rawLine m1 m2 m3 m4 m5 hne hm]
  rw [if_neg (fun hc => hc hok)]
  rw [if_neg (show ¬ goContainsL (trimStr m5).data "No Reading".data = true by
    rw [hnr]; exact Bool.false_ne_true)]
  rw [hpv]
  rw [if_neg (show ¬ ((GoFloat.finite 0, u, t).1 = GoFloat.finite 0 ∧
    (GoFloat.finite 0, u, t).2.1 = "") from fun hc => hu hc.2)]

theorem c10_zero_value_reading_kept_witness :
    parseLine [] "PSU Power      | 0ah | ok  |  3.1 | 0 Watts".data =
      [⟨"PSU Power", "0ah", "ok", "3.1", GoFloat.finite 0, "watts", "power"⟩] :=
  c10_zero_value_reading_kept "PSU Power      | 0ah | ok  |  3.1 | 0 Watts".data []
    ("PSU Power      ".data, "0ah ".data, "ok".data, "3.1 ".data, "0 Watts".data)
    "watts" "power" (by decide) (by decide) (by decide) (by decide) (by decide)

end IpmiExporter
